import Mathlib

/-!
Verification of the fusion-mcp bridge, protocol and error-handling core.

Each definition below is a shallow embedding of the corresponding Python
function of the repository (src/src/utils/error_handler.py,
src/src/fusion360/client.py, src/src/fusion360/addin.py,
src/src/core/bridge.py).  External effects (sockets, the Fusion host API,
the wall clock, the logger) are passed in explicitly as parameters, so that
every definition is executable and every property is stated over the code
as written.  Definitions come first, theorems follow.
-/

namespace FusionMCP

/-! Error taxonomy, from src/src/utils/error_handler.py (ErrorSeverity,
ErrorCategory, Fusion360Error and its subclasses). -/

/-- Severity levels of the ErrorSeverity enum. -/
inductive ErrorSeverity
  | low
  | medium
  | high
  | critical
deriving DecidableEq, Repr

/-- Categories of the ErrorCategory enum. -/
inductive ErrorCategory
  | fusionApi
  | pluginComm
  | validation
  | resource
  | network
  | filesystem
  | configuration
  | unknown
deriving DecidableEq, Repr

/-- A typed Fusion360Error value: message, category and severity.  The
details dictionary and the creation timestamp carried by the Python class
play no role in any claim and are omitted. -/
structure Fusion360Error where
  message : String
  category : ErrorCategory
  severity : ErrorSeverity
deriving DecidableEq, Repr

/-- An exception reaching the error handler: either already a typed
Fusion360Error (the isinstance branch of classification) or an arbitrary
Python exception, represented by the string str(error). -/
inductive PyException
  | typed (e : Fusion360Error)
  | untyped (message : String)
deriving DecidableEq, Repr

/-! Keyword classification, from ErrorHandler dot _classify_error
(error_handler.py lines 154-201). -/

/-- Plugin-communication keywords of _classify_error. -/
def commKeywords : List String :=
  ["connection", "socket", "timeout", "network", "communication"]

/-- Fusion-API keywords of _classify_error. -/
def apiKeywords : List String :=
  ["fusion", "adsk", "sketch", "feature", "component"]

/-- Validation keywords of _classify_error. -/
def validationKeywords : List String :=
  ["invalid", "validation", "parameter", "argument"]

/-- Resource keywords of _classify_error. -/
def resourceKeywords : List String :=
  ["file", "directory", "path", "resource", "access"]

/-- Substring test on character lists: needle occurs contiguously in hay.
Models the Python expression keyword in message. -/
def containsSub (needle : List Char) : List Char → Bool
  | [] => needle.isEmpty
  | c :: t => needle.isPrefixOf (c :: t) || containsSub needle t

/-- Python expression any(keyword in error_message.lower() for keyword in kws).
The message is lowered character by character; the keyword literals in the
source are already lowercase. -/
def msgMatches (msg : String) (kws : List String) : Bool :=
  kws.any (fun kw => containsSub kw.data (msg.data.map Char.toLower))

/-- Embedding of ErrorHandler dot _classify_error: a typed error is used
as-is; otherwise the lowered message is matched against the four keyword
sets in source order, building the corresponding Fusion360Error subclass
(whose constructor fixes the severity); no match yields Unknown / Medium. -/
def classifyError : PyException → Fusion360Error
  | .typed e => e
  | .untyped msg =>
    if msgMatches msg commKeywords then
      ⟨"Plugin communication error: " ++ msg, .pluginComm, .high⟩
    else if msgMatches msg apiKeywords then
      ⟨"Fusion360 API error: " ++ msg, .fusionApi, .medium⟩
    else if msgMatches msg validationKeywords then
      ⟨"Data validation error: " ++ msg, .validation, .low⟩
    else if msgMatches msg resourceKeywords then
      ⟨"Resource access error: " ++ msg, .resource, .medium⟩
    else
      ⟨"Unknown error: " ++ msg, .unknown, .medium⟩

/-- Priority list of keyword sets and their categories, written from the
words of the specification (communication keywords first, then API, then
validation, then resource). -/
def specKeywordPriority : List (List String × ErrorCategory) :=
  [(commKeywords, .pluginComm), (apiKeywords, .fusionApi),
   (validationKeywords, .validation), (resourceKeywords, .resource)]

/-- First keyword set (in priority order) matching the message determines
the category; no match gives Unknown.  Specification-side rendering of the
classification order. -/
def specFirstMatch (msg : String) : ErrorCategory :=
  match specKeywordPriority.find? (fun p => msgMatches msg p.1) with
  | some p => p.2
  | none => .unknown

/-- Severity that each classification outcome carries, fixed by the
Fusion360Error subclass constructors (and Medium for Unknown). -/
def specSeverityFor : ErrorCategory → ErrorSeverity
  | .pluginComm => .high
  | .fusionApi => .medium
  | .validation => .low
  | .resource => .medium
  | _ => .medium

/-! Error identifier and error records, from ErrorHandler dot _log_error
(error_handler.py lines 203-238). -/

/-- Decimal digit rendered as a character, as Python string formatting
renders each digit (code point 48 plus the digit value). -/
def digitChar (d : Nat) : Char := Char.ofNat (48 + d)

/-- Little-endian decimal digits with explicit fuel, so that the function
reduces inside the kernel. -/
def decDigitsRevFuel : Nat → Nat → List Nat
  | 0, _ => []
  | _ + 1, 0 => []
  | fuel + 1, n + 1 => ((n + 1) % 10) :: decDigitsRevFuel fuel ((n + 1) / 10)

/-- Little-endian decimal digits of a natural number. -/
def pyDigitsRev (n : Nat) : List Nat := decDigitsRevFuel n n

/-- Decimal rendering of a natural number, modelling the Python format
expression for an int inside an f-string: the most significant digit first,
with zero rendered as the single digit 0. -/
def pyNatRepr (n : Nat) : String :=
  if n = 0 then "0"
  else String.mk ((pyDigitsRev n).reverse.map digitChar)

/-- Error identifier built in _log_error: the literal ERR_ followed by the
milliseconds of the wall clock, int(time.time() * 1000), passed in here
explicitly as nowMs. -/
def mkErrorId (nowMs : Nat) : String := "ERR_" ++ pyNatRepr nowMs

/-- One entry of the error history, from the record dictionary built in
_log_error.  The details, context and traceback entries play no role in any
claim and are omitted; the timestamp is kept as milliseconds. -/
structure ErrorRecord where
  errorId : String
  timestampMs : Nat
  category : ErrorCategory
  severity : ErrorSeverity
  message : String
deriving DecidableEq, Repr

/-- Embedding of ErrorHandler dot _add_to_history: append the record, then,
when the length exceeds maxSize, keep the slice of the last maxSize
elements.  The inner test mirrors the Python slice lst[-n:], which for
n = 0 is the whole list. -/
def addToHistory (maxSize : Nat) (hist : List ErrorRecord) (r : ErrorRecord) :
    List ErrorRecord :=
  let h := hist ++ [r]
  if maxSize < h.length then
    if maxSize = 0 then h else h.drop (h.length - maxSize)
  else h

/-! Retry strategies, from ErrorHandler dot _init_retry_strategies
(error_handler.py lines 78-115).  Each strategy is a Python dictionary read
with dict.get and a default, so every field is optional here.  The float
literals of the source are represented as exact rationals. -/

/-- One per-category strategy dictionary. -/
structure RetryStrategy where
  maxRetries : Option Nat
  backoffFactor : Option ℚ
  initialDelay : Option ℚ
  recoverable : Option Bool
deriving DecidableEq, Repr

/-- The strategy table returned by _init_retry_strategies, in the insertion
order of the Python dict literal. -/
def defaultStrategies : List (ErrorCategory × RetryStrategy) :=
  [(.pluginComm, ⟨some 3, some 2, some 1, some true⟩),
   (.fusionApi, ⟨some 2, some (3 / 2), some (1 / 2), some true⟩),
   (.network, ⟨some 5, some 2, some 1, some true⟩),
   (.resource, ⟨some 2, some 1, some (1 / 2), some true⟩),
   (.validation, ⟨some 0, none, none, some false⟩),
   (.configuration, ⟨some 1, some 1, some (1 / 10), some true⟩)]

/-- Python expression self.retry_strategies.get(category, empty dict). -/
def lookupStrategy (strategies : List (ErrorCategory × RetryStrategy))
    (c : ErrorCategory) : Option RetryStrategy :=
  (strategies.find? (fun p => p.1 == c)).map Prod.snd

/-- Embedding of ErrorHandler dot _is_recoverable: the recoverable flag of
the strategy of the category of the error, with default False. -/
def isRecoverable (strategies : List (ErrorCategory × RetryStrategy))
    (e : Fusion360Error) : Bool :=
  match lookupStrategy strategies e.category with
  | some s => s.recoverable.getD false
  | none => false

/-- The caller-facing report returned by handle_error.  The user message,
recovery suggestions, technical details and iso timestamp of the source are
observability text and are omitted here. -/
structure ErrorReport where
  errorId : String
  category : ErrorCategory
  severity : ErrorSeverity
  message : String
  recoverable : Bool
deriving DecidableEq, Repr

/-- Mutable state of an ErrorHandler instance: the history list, the
strategy table and the history bound (100 in the constructor). -/
structure HandlerState where
  history : List ErrorRecord
  strategies : List (ErrorCategory × RetryStrategy)
  maxHistorySize : Nat
deriving DecidableEq, Repr

/-- A freshly constructed ErrorHandler. -/
def initHandlerState : HandlerState := ⟨[], defaultStrategies, 100⟩

/-- Embedding of ErrorHandler dot handle_error: classify, build the record
(with the identifier derived from the wall-clock milliseconds nowMs), add
it to the bounded history and return the report. -/
def handleError (st : HandlerState) (nowMs : Nat) (e : PyException) :
    HandlerState × ErrorReport :=
  let fe := classifyError e
  let record : ErrorRecord :=
    ⟨mkErrorId nowMs, nowMs, fe.category, fe.severity, fe.message⟩
  ({ st with history := addToHistory st.maxHistorySize st.history record },
   ⟨record.errorId, fe.category, fe.severity, fe.message,
     isRecoverable st.strategies fe⟩)

/-! Retry driver, from ErrorHandler dot retry_with_backoff
(error_handler.py lines 328-357).  The operation is modelled as a function
from the zero-based global invocation index to either success or a raised
exception; the trace of the run records every observable action. -/

/-- Running trace of one retry_with_backoff call: number of operation
invocations so far, the sleep durations performed, the exceptions passed to
handle_error, whether the operation has returned, and the last exception
seen. -/
structure RetryTrace where
  invocations : Nat
  sleeps : List ℚ
  handled : List PyException
  succeeded : Bool
  lastError : Option PyException
deriving DecidableEq, Repr

/-- Rational power by iterated multiplication, modelling the Python float
power operator in the delay formula. -/
def ratPow (q : ℚ) : Nat → ℚ
  | 0 => 1
  | n + 1 => ratPow q n * q

/-- The inner attempt loop of retry_with_backoff for one strategy, with the
trace fields passed separately: up to remaining further attempts after the
current one; attempt is the Python loop counter, used in the delay formula
initial_delay times backoff_factor to the power attempt.  On the final
failed attempt the exception goes to handle_error and the loop breaks. -/
def runAttempts (op : Nat → Except PyException Unit) (s : RetryStrategy) :
    Nat → Nat → Nat → List ℚ → List PyException → Option PyException →
      RetryTrace
  | remaining, attempt, inv, sleeps, handled, last =>
    match op inv with
    | .ok _ => ⟨inv + 1, sleeps, handled, true, last⟩
    | .error e =>
      match remaining with
      | 0 => ⟨inv + 1, sleeps, handled ++ [e], false, some e⟩
      | r + 1 =>
        runAttempts op s r (attempt + 1) (inv + 1)
          (sleeps ++
            [s.initialDelay.getD 1 * ratPow (s.backoffFactor.getD 2) attempt])
          handled (some e)

/-- One iteration of the outer for-loop of retry_with_backoff: when no
attempt has returned yet, run the attempt loop of the next strategy, whose
range is max_retries plus one attempts. -/
def runStrategy (op : Nat → Except PyException Unit) (tr : RetryTrace)
    (s : RetryStrategy) : RetryTrace :=
  match tr with
  | ⟨inv, sleeps, handled, true, last⟩ => ⟨inv, sleeps, handled, true, last⟩
  | ⟨inv, sleeps, handled, false, last⟩ =>
    runAttempts op s (s.maxRetries.getD 0) 0 inv sleeps handled last

/-- Embedding of ErrorHandler dot retry_with_backoff: iterate over the
whole strategy table in insertion order (as the source does), stopping only
when an attempt returns; a success inside any strategy returns from the
whole call. -/
def retryWithBackoff (strategies : List (ErrorCategory × RetryStrategy))
    (op : Nat → Except PyException Unit) : RetryTrace :=
  strategies.foldl (fun tr p => runStrategy op tr p.2) ⟨0, [], [], false, none⟩

/-- Final raise of retry_with_backoff: when no attempt returned, the last
exception is re-raised. -/
def retryRaised (tr : RetryTrace) : Option PyException :=
  if tr.succeeded then none else tr.lastError

/-- An operation that raises on every invocation with a message classified
into the Validation category. -/
def alwaysInvalidOp : Nat → Except PyException Unit :=
  fun _ => .error (.untyped "invalid parameter")

/-! Plugin client, from src/src/fusion360/client.py
(Fusion360PluginClient).  The socket is represented by two booleans: the
_connected flag and whether _socket is not None. -/

/-- Connection state of the client. -/
structure ClientState where
  connected : Bool
  socketSet : Bool
deriving DecidableEq, Repr

/-- Outcome of one send-request-then-receive-and-decode exchange, decided
by the environment: either a decoded response value or an exception
(any I/O or decode failure) with its message. -/
inductive ExchangeOutcome (α : Type)
  | ok (resp : α)
  | raises (msg : String)
deriving DecidableEq, Repr

/-- Environment of one send_command call: whether a connect attempt would
succeed, and how the exchange would go. -/
structure SendEnv (α : Type) where
  connectOk : Bool
  exchange : ExchangeOutcome α
deriving DecidableEq, Repr

/-- Result of send_command as seen by the caller: either the decoded
response passed through, or an error dictionary with the given message.
The source catches every exception, so no raising constructor exists. -/
inductive SendResult (α : Type)
  | response (r : α)
  | errorMsg (s : String)
deriving DecidableEq, Repr

/-- Embedding of Fusion360PluginClient dot connect: a new socket object is
created first (so _socket is set in both branches), then the connect call
either succeeds, setting _connected, or fails, clearing it and returning
False. -/
def clientConnect (ok : Bool) : ClientState × Bool :=
  if ok then (⟨true, true⟩, true) else (⟨false, true⟩, false)

/-- Embedding of Fusion360PluginClient dot is_connected. -/
def clientIsConnected (st : ClientState) : Bool :=
  st.connected && st.socketSet

/-- Embedding of Fusion360PluginClient dot send_command: reconnect if
needed (returning the fixed error dictionary when the connect fails), then
perform one exchange; any exception during the exchange disconnects the
client (clearing both fields) and is converted into a communication-error
dictionary. -/
def sendCommand (env : SendEnv α) (st : ClientState) :
    ClientState × SendResult α :=
  if clientIsConnected st then
    match env.exchange with
    | .ok r => (st, .response r)
    | .raises m =>
      (⟨false, false⟩, .errorMsg ("Communication error: " ++ m))
  else
    match clientConnect env.connectOk with
    | (st1, false) =>
      (st1, .errorMsg "Unable to connect to Fusion360 plugin")
    | (st1, true) =>
      match env.exchange with
      | .ok r => (st1, .response r)
      | .raises m =>
        (⟨false, false⟩, .errorMsg ("Communication error: " ++ m))

/-! Plugin server, from src/src/fusion360/addin.py
(MCPCommunicationServer dot _handle_client and _process_request). -/

/-- A decoded request dictionary: request.get of command.  A missing key is
none; params play no role in the claims and are dropped. -/
structure PyRequest where
  command : Option String
deriving DecidableEq, Repr

/-- One frame received on a connection: either bytes that decode to a
request, or bytes whose JSON parse raises with the given message. -/
inductive Frame
  | valid (req : PyRequest)
  | malformed (msg : String)
deriving DecidableEq, Repr

/-- A response dictionary sent back to the client: a success payload or an
error dictionary with the given message. -/
inductive Response (α : Type)
  | ok (r : α)
  | err (s : String)
deriving DecidableEq, Repr

/-- Command names of the dispatch chain of _process_request, in source
order. -/
def knownCommands : List String :=
  ["get_design_info", "get_component_hierarchy", "create_sketch",
   "create_rectangle", "create_circle", "create_extrude", "get_sketches",
   "get_features", "draw_line", "draw_arc", "draw_polygon"]

/-- Behaviour of one dispatched command handler, decided by the host
environment: a result value or a raised exception with its message. -/
inductive HandlerOutcome (α : Type)
  | ok (r : α)
  | raises (msg : String)
deriving DecidableEq, Repr

/-- Embedding of MCPCommunicationServer dot _process_request: a missing or
falsy command yields the missing-parameter error; a name outside the
dispatch chain yields the unknown-command error; an exception inside a
dispatched handler is caught and converted into the execution-failed
error. -/
def processRequest (exec : String → HandlerOutcome α) (req : PyRequest) :
    Response α :=
  match req.command with
  | none => .err "Missing command parameter"
  | some c =>
    if c = "" then .err "Missing command parameter"
    else if knownCommands.contains c then
      match exec c with
      | .ok r => .ok r
      | .raises m =>
        .err ("Command \x27" ++ c ++ "\x27 execution failed: " ++ m)
    else .err ("Unknown command: " ++ c)

/-- Embedding of the receive loop of MCPCommunicationServer dot
_handle_client, as the list of responses written back for a list of
incoming frames: a valid frame is processed and the loop continues; a
malformed frame is answered with the JSON-parse error (sent best-effort)
and the loop breaks, after which the finally block closes the connection.
The connection socket is closed on every exit path. -/
def handleClient (exec : String → HandlerOutcome α) :
    List Frame → List (Response α)
  | [] => []
  | .valid req :: rest => processRequest exec req :: handleClient exec rest
  | .malformed m :: _ => [.err ("JSON parse error: " ++ m)]

/-- The accept loop of the server: one dedicated handler per accepted
connection, each processing only its own frames. -/
def runServer (exec : String → HandlerOutcome α) (conns : List (List Frame)) :
    List (List (Response α)) :=
  conns.map (handleClient exec)

/-! Bridge, from src/src/core/bridge.py (Fusion360Bridge). -/

/-- State of a Fusion360Bridge instance: the _initialized flag, the _mode
string, the use_plugin_mode constructor flag, whether plugin_client has
been assigned, whether the client socket is connected, and whether
self.design is set (direct mode only). -/
structure BridgeState where
  initialized : Bool
  mode : String
  usePluginMode : Bool
  pluginClientSet : Bool
  clientConnected : Bool
  designSet : Bool
deriving DecidableEq, Repr

/-- A Fusion360Bridge as constructed by __init__ with the given
use_plugin_mode flag. -/
def mkBridge (usePluginMode : Bool) : BridgeState :=
  ⟨false, "unknown", usePluginMode, false, false, false⟩

/-- Environment of a bridge: whether the plugin client module imported
(PLUGIN_CLIENT_AVAILABLE), whether the host API imported
(FUSION_AVAILABLE), what test_connection on a fresh client returns (the
client catches every exception internally and returns a boolean), whether
direct-mode acquisition of the application object succeeds, and whether a
get_design_info round trip in plugin mode reports success. -/
structure BridgeEnv where
  pluginClientAvailable : Bool
  fusionAvailable : Bool
  testConnectionOk : Bool
  directInitOk : Bool
  pluginDesignInfoSuccess : Bool
deriving DecidableEq, Repr

/-- Embedding of Fusion360Bridge dot initialize together with
_initialize_plugin_mode and _initialize_direct_mode: when plugin mode is
attempted, its boolean result is returned directly (a failed test leaves
mode unknown); otherwise the direct mode is attempted when the host API is
available (a failure raises, is caught by the outer handler and yields
False); otherwise simulation mode is selected and True is returned. -/
def initializeBridge (env : BridgeEnv) (st : BridgeState) :
    BridgeState × Bool :=
  if st.usePluginMode && env.pluginClientAvailable then
    let st1 := { st with pluginClientSet := true }
    if env.testConnectionOk then
      ({ st1 with mode := "plugin", initialized := true }, true)
    else (st1, false)
  else if env.fusionAvailable then
    if env.directInitOk then
      ({ st with mode := "direct", initialized := true, designSet := true },
        true)
    else (st, false)
  else
    ({ st with mode := "simulation", initialized := true }, true)

/-- Embedding of the has_active_design property: plugin mode asks the
plugin for design info and reads the success flag, direct mode checks
self.design, every other mode (simulation, and the initial unknown string)
reports True. -/
def hasActiveDesign (env : BridgeEnv) (st : BridgeState) : Bool :=
  if st.mode == "plugin" then env.pluginDesignInfoSuccess
  else if st.mode == "direct" then st.designSet
  else true

/-- Embedding of Fusion360Bridge dot cleanup: disconnect the plugin client
when one is set and clear _initialized; the mode string is not touched. -/
def cleanupBridge (st : BridgeState) : BridgeState :=
  { st with clientConnected := false, initialized := false }

/-! Theorems.  Helper lemmas come first, then one theorem per claim (with
its witness or counterexample where required). -/

/-- C7: a typed Fusion360Error is used as-is by classification; an untyped
exception is classified by matching its message against the keyword sets in
the fixed priority order communication, API, validation, resource, the
first matching set determining the category; a message matching no set
yields category Unknown with severity Medium (and each outcome carries the
severity fixed by its subclass constructor). -/
theorem classify_follows_priority (fe : Fusion360Error) (msg : String) :
    classifyError (.typed fe) = fe ∧
    (classifyError (.untyped msg)).category = specFirstMatch msg ∧
    (classifyError (.untyped msg)).severity = specSeverityFor (specFirstMatch msg) := by
  refine ⟨rfl, ?_, ?_⟩ <;>
  · simp only [classifyError, specFirstMatch, specKeywordPriority, List.find?]
    by_cases h1 : msgMatches msg commKeywords <;>
      by_cases h2 : msgMatches msg apiKeywords <;>
        by_cases h3 : msgMatches msg validationKeywords <;>
          by_cases h4 : msgMatches msg resourceKeywords <;>
            simp [h1, h2, h3, h4, specSeverityFor]

/-- One step of _add_to_history from a history already within the bound:
below the bound it is a plain append, at the bound the oldest record is
evicted. -/
theorem addToHistory_step (maxSize : Nat) (hpos : 0 < maxSize)
    (hist : List ErrorRecord)
    (r : ErrorRecord) (hlen : hist.length ≤ maxSize) :
    addToHistory maxSize hist r =
      if hist.length < maxSize then hist ++ [r] else (hist ++ [r]).drop 1 := by
  simp only [addToHistory]
  by_cases hc : hist.length < maxSize
  · rw [if_neg (by simp; omega), if_pos hc]
  · rw [if_pos (by simp; omega), if_neg (by omega), if_neg hc]
    congr 1
    simp
    omega

/-- Folding _add_to_history over a run of records from an empty history
keeps exactly the last maxSize records, in order. -/
theorem foldl_addToHistory (maxSize : Nat) (hpos : 0 < maxSize) :
    ∀ recs : List ErrorRecord,
      List.foldl (addToHistory maxSize) [] recs =
        recs.drop (recs.length - maxSize) := by
  intro recs
  induction recs using List.reverseRecOn with
  | nil => simp
  | append_singleton l r ih =>
    have hdlen : (l.drop (l.length - maxSize)).length =
        l.length - (l.length - maxSize) := List.length_drop _ _
    rw [List.foldl_concat, ih,
      addToHistory_step maxSize hpos _ r (by omega)]
    simp only [List.length_append, List.length_singleton]
    by_cases hlt : l.length < maxSize
    · have h0 : l.length - maxSize = 0 := by omega
      have h1 : l.length + 1 - maxSize = 0 := by omega
      rw [if_pos (by omega), h0, h1]
      simp
    · push_neg at hlt
      rw [if_neg (by omega)]
      have hdd : (l.drop (l.length - maxSize) ++ [r]).drop 1 =
          (l.drop (l.length - maxSize)).drop 1 ++ [r] :=
        List.drop_append_of_le_length (by omega)
      rw [hdd, List.drop_drop]
      have hle : l.length + 1 - maxSize ≤ l.length := by omega
      rw [List.drop_append_of_le_length hle]
      congr 2
      omega

/-- C4: inserting maxSize + K errors into the bounded history leaves
exactly maxSize records, the oldest K records are gone, and the retained
records keep their insertion order (the final history is exactly the run of
records with its first K elements removed). -/
theorem history_fifo_eviction (maxSize K : Nat) (hpos : 0 < maxSize)
    (recs : List ErrorRecord) (hlen : recs.length = maxSize + K) :
    List.foldl (addToHistory maxSize) [] recs = recs.drop K ∧
    (List.foldl (addToHistory maxSize) [] recs).length = maxSize := by
  have h := foldl_addToHistory maxSize hpos recs
  have hk : recs.length - maxSize = K := by omega
  rw [hk] at h
  refine ⟨h, ?_⟩
  rw [h, List.length_drop, hlen]
  omega

/-- Witness for history_fifo_eviction: three concrete records through a
history bounded at two keep exactly the last two. -/
theorem history_fifo_eviction_witness :
    (0 < 2 ∧
      ([(⟨"ERR_1", 1, .unknown, .medium, "a"⟩ : ErrorRecord),
        ⟨"ERR_2", 2, .unknown, .medium, "b"⟩,
        ⟨"ERR_3", 3, .unknown, .medium, "c"⟩] : List ErrorRecord).length = 2 + 1) ∧
    List.foldl (addToHistory 2) []
        [(⟨"ERR_1", 1, .unknown, .medium, "a"⟩ : ErrorRecord),
          ⟨"ERR_2", 2, .unknown, .medium, "b"⟩,
          ⟨"ERR_3", 3, .unknown, .medium, "c"⟩] =
      ([(⟨"ERR_1", 1, .unknown, .medium, "a"⟩ : ErrorRecord),
        ⟨"ERR_2", 2, .unknown, .medium, "b"⟩,
        ⟨"ERR_3", 3, .unknown, .medium, "c"⟩] : List ErrorRecord).drop 1 ∧
      (List.foldl (addToHistory 2) []
        [(⟨"ERR_1", 1, .unknown, .medium, "a"⟩ : ErrorRecord),
          ⟨"ERR_2", 2, .unknown, .medium, "b"⟩,
          ⟨"ERR_3", 3, .unknown, .medium, "c"⟩]).length = 2 :=
  ⟨⟨by decide, by decide⟩,
    history_fifo_eviction 2 1 (by decide) _ (by decide)⟩

/-- C2: the retry driver does not key off the classified category of the
failing operation.  For an operation that always raises with a message
classified into Validation (whose strategy allows zero retries, so the
claim predicts a single invocation, one handle_error call and a re-raise),
the source iterates over the whole strategy table: the operation is invoked
nineteen times, handle_error is called six times (once per category), and
the last exception is finally re-raised. -/
theorem retry_iterates_every_category :
    (classifyError (.untyped "invalid parameter")).category = .validation ∧
    (lookupStrategy defaultStrategies .validation).map
        (fun s => s.maxRetries.getD 0) = some 0 ∧
    (retryWithBackoff defaultStrategies alwaysInvalidOp).invocations = 19 ∧
    (retryWithBackoff defaultStrategies alwaysInvalidOp).handled.length = 6 ∧
    retryRaised (retryWithBackoff defaultStrategies alwaysInvalidOp) =
      some (.untyped "invalid parameter") := by
  decide

/-- C8: a Validation-classified failure is reported as not recoverable by
handle_error (this half of the claim holds), but retry_with_backoff does
not perform zero retries for it: the operation is re-invoked under every
strategy of the table, sleeping thirteen times, instead of stopping after
the single allowed attempt. -/
theorem validation_not_recoverable_yet_retried :
    (handleError initHandlerState 1000 (.untyped "invalid parameter")).2.recoverable
        = false ∧
    isRecoverable defaultStrategies
        (classifyError (.untyped "invalid parameter")) = false ∧
    (retryWithBackoff defaultStrategies alwaysInvalidOp).sleeps.length = 13 := by
  decide

/-- The fueled digit function agrees with Mathlib digits in base ten once
the fuel covers the argument. -/
theorem decDigitsRevFuel_eq_digits :
    ∀ (fuel n : Nat), n ≤ fuel → decDigitsRevFuel fuel n = Nat.digits 10 n := by
  intro fuel
  induction fuel with
  | zero =>
    intro n hn
    interval_cases n
    simp [decDigitsRevFuel]
  | succ f ih =>
    intro n hn
    match n with
    | 0 => simp [decDigitsRevFuel]
    | m + 1 =>
      rw [decDigitsRevFuel, ih ((m + 1) / 10) (by omega),
        Nat.digits_def' (by norm_num) (Nat.succ_pos m)]

/-- The digit lists agree with Mathlib digits in base ten. -/
theorem pyDigitsRev_eq_digits (n : Nat) : pyDigitsRev n = Nat.digits 10 n :=
  decDigitsRevFuel_eq_digits n n (le_refl n)

/-- Every decimal digit produced is below ten. -/
theorem pyDigitsRev_lt_ten (n : Nat) : ∀ x ∈ pyDigitsRev n, x < 10 := by
  rw [pyDigitsRev_eq_digits]
  intro x hx
  exact Nat.digits_lt_base (by norm_num) hx

/-- Rendering digit lists below ten as characters is injective. -/
theorem map_digitChar_inj :
    ∀ l1 l2 : List Nat, (∀ x ∈ l1, x < 10) → (∀ x ∈ l2, x < 10) →
      l1.map digitChar = l2.map digitChar → l1 = l2 := by
  intro l1
  induction l1 with
  | nil =>
    intro l2 _ _ h
    cases l2 with
    | nil => rfl
    | cons b t => simp at h
  | cons a t ih =>
    intro l2 h1 h2 h
    cases l2 with
    | nil => simp at h
    | cons b t2 =>
      simp only [List.map_cons, List.cons.injEq] at h
      have hab : a = b := by
        have ha : a < 10 := h1 a (by simp)
        have hb : b < 10 := h2 b (by simp)
        have hcheck : ∀ d1 < 10, ∀ d2 < 10, digitChar d1 = digitChar d2 → d1 = d2 := by
          decide
        exact hcheck a ha b hb h.1
      have ht : t = t2 :=
        ih t2 (fun x hx => h1 x (by simp [hx])) (fun x hx => h2 x (by simp [hx])) h.2
      rw [hab, ht]

/-- A nonzero number never renders as the single character zero. -/
theorem pyNatRepr_eq_zero_string (n : Nat) (h : pyNatRepr n = "0") : n = 0 := by
  by_contra hn
  rw [pyNatRepr, if_neg hn] at h
  have hdata : (pyDigitsRev n).reverse.map digitChar = ("0").data :=
    congrArg String.data h
  have h0 : ("0").data = [Char.ofNat 48] := rfl
  rw [h0] at hdata
  cases hL : (pyDigitsRev n).reverse with
  | nil => rw [hL] at hdata; simp at hdata
  | cons x xs =>
    rw [hL] at hdata
    simp only [List.map_cons, List.cons.injEq] at hdata
    have hxs : xs = [] := List.map_eq_nil_iff.mp hdata.2
    have hxlt : x < 10 := by
      refine pyDigitsRev_lt_ten n x (List.mem_reverse.mp ?_)
      rw [hL]
      simp
    have hx0 : x = 0 := by
      have hc : ∀ d < 10, digitChar d = Char.ofNat 48 → d = 0 := by decide
      exact hc x hxlt hdata.1
    have hpd : pyDigitsRev n = [0] := by
      have hrr := congrArg List.reverse hL
      rw [List.reverse_reverse] at hrr
      rw [hrr, hxs, hx0]
      rfl
    have hd : Nat.digits 10 n = [0] := by
      rw [← pyDigitsRev_eq_digits, hpd]
    have hofd := Nat.ofDigits_digits 10 n
    rw [hd] at hofd
    simp [Nat.ofDigits] at hofd
    exact hn hofd.symm

/-- The Python decimal rendering is injective. -/
theorem pyNatRepr_injective : Function.Injective pyNatRepr := by
  intro a b h
  by_cases ha : a = 0 <;> by_cases hb : b = 0
  · rw [ha, hb]
  · subst ha
    have h0 : pyNatRepr 0 = "0" := rfl
    rw [h0] at h
    exact absurd (pyNatRepr_eq_zero_string b h.symm) hb
  · subst hb
    have h0 : pyNatRepr 0 = "0" := rfl
    rw [h0] at h
    exact absurd (pyNatRepr_eq_zero_string a h) ha
  · rw [pyNatRepr, if_neg ha, pyNatRepr, if_neg hb] at h
    have hdata : (pyDigitsRev a).reverse.map digitChar =
        (pyDigitsRev b).reverse.map digitChar := congrArg String.data h
    have hrev := map_digitChar_inj _ _
      (fun x hx => pyDigitsRev_lt_ten a x (List.mem_reverse.mp hx))
      (fun x hx => pyDigitsRev_lt_ten b x (List.mem_reverse.mp hx)) hdata
    have hpd : pyDigitsRev a = pyDigitsRev b := List.reverse_injective hrev
    rw [pyDigitsRev_eq_digits, pyDigitsRev_eq_digits] at hpd
    exact Nat.digits.injective 10 hpd

/-- The error identifier determines the millisecond timestamp. -/
theorem mkErrorId_injective : Function.Injective mkErrorId := by
  intro a b h
  apply pyNatRepr_injective
  have hdata : ("ERR_" ++ pyNatRepr a).data = ("ERR_" ++ pyNatRepr b).data :=
    congrArg String.data h
  rw [String.data_append, String.data_append] at hdata
  exact congrArg String.mk (List.append_cancel_left hdata)

/-- C9 counterexample: two distinct handle_error calls (different
exceptions, performed one after the other) that fall in the same
wall-clock millisecond receive the same error identifier, so the
identifiers of two distinct calls are not always distinct. -/
theorem error_id_collision_same_millisecond :
    ((handleError initHandlerState 1000 (.untyped "boom")).2.errorId =
      (handleError (handleError initHandlerState 1000 (.untyped "boom")).1 1000
        (.untyped "crash")).2.errorId) ∧
    (PyException.untyped "boom") ≠ (PyException.untyped "crash") := by
  decide

/-- C9 amended: the error identifier is derived solely from the wall-clock
millisecond of the call, so two handle_error calls whose milliseconds
differ receive distinct identifiers (calls within one millisecond share an
identifier). -/
theorem error_id_distinct_across_milliseconds (st1 st2 : HandlerState)
    (t1 t2 : Nat) (e1 e2 : PyException) (h : t1 ≠ t2) :
    (handleError st1 t1 e1).2.errorId ≠ (handleError st2 t2 e2).2.errorId :=
  fun hq => h (mkErrorId_injective hq)

/-- Witness for error_id_distinct_across_milliseconds at two concrete
milliseconds. -/
theorem error_id_distinct_witness :
    (1000 : Nat) ≠ 1001 ∧
    (handleError initHandlerState 1000 (.untyped "boom")).2.errorId ≠
      (handleError initHandlerState 1001 (.untyped "boom")).2.errorId :=
  ⟨by decide,
    error_id_distinct_across_milliseconds initHandlerState initHandlerState
      1000 1001 (.untyped "boom") (.untyped "boom") (by decide)⟩

/-- C3 counterexample: when the client is not connected and the connect
attempt fails, send_command returns the error string naming Fusion360,
which differs from the string of the claim. -/
theorem send_connect_error_string_counterexample :
    (sendCommand (⟨false, .ok ()⟩ : SendEnv Unit) ⟨false, false⟩).2 =
      SendResult.errorMsg "Unable to connect to Fusion360 plugin" ∧
    "Unable to connect to Fusion360 plugin" ≠ "Unable to connect to plugin" := by
  decide

/-- C3 amended: when the client is not connected and the connect attempt
fails, send_command returns the error dictionary with message Unable to
connect to Fusion360 plugin without raising; any exception during an
exchange leaves the client disconnected and returns the communication
error with the exception message; a successful exchange passes the decoded
response through.  The embedding of send_command is a total function, as
the source catches every exception. -/
theorem send_command_error_paths {α : Type} (env : SendEnv α) (st : ClientState) :
    (clientIsConnected st = false → env.connectOk = false →
      sendCommand env st =
        (⟨false, true⟩, .errorMsg "Unable to connect to Fusion360 plugin")) ∧
    (∀ m, env.exchange = .raises m →
      (clientIsConnected st = true ∨ env.connectOk = true) →
      sendCommand env st =
        (⟨false, false⟩, .errorMsg ("Communication error: " ++ m))) ∧
    (∀ r, env.exchange = .ok r →
      (clientIsConnected st = true ∨ env.connectOk = true) →
      (sendCommand env st).2 = .response r) := by
  refine ⟨?_, ?_, ?_⟩
  · intro hnc hcf
    simp [sendCommand, hnc, clientConnect, hcf]
  · intro m hm hc
    rcases hc with hc | hc
    · simp [sendCommand, hc, hm]
    · by_cases hcon : clientIsConnected st = true
      · simp [sendCommand, hcon, hm]
      · simp at hcon
        simp [sendCommand, hcon, clientConnect, hc, hm]
  · intro r hr hc
    rcases hc with hc | hc
    · simp [sendCommand, hc, hr]
    · by_cases hcon : clientIsConnected st = true
      · simp [sendCommand, hcon, hr]
      · simp at hcon
        simp [sendCommand, hcon, clientConnect, hc, hr]

/-- Witness for send_command_error_paths: a refused connect and a raising
exchange at concrete inputs. -/
theorem send_command_error_paths_witness :
    sendCommand (⟨false, .ok ()⟩ : SendEnv Unit) ⟨false, false⟩ =
      (⟨false, true⟩, .errorMsg "Unable to connect to Fusion360 plugin") ∧
    sendCommand (⟨true, .raises "timed out"⟩ : SendEnv Unit) ⟨true, true⟩ =
      (⟨false, false⟩, .errorMsg ("Communication error: " ++ "timed out")) :=
  ⟨(send_command_error_paths (⟨false, .ok ()⟩ : SendEnv Unit) ⟨false, false⟩).1
      rfl rfl,
    (send_command_error_paths (⟨true, .raises "timed out"⟩ : SendEnv Unit)
      ⟨true, true⟩).2.1 "timed out" rfl (Or.inl rfl)⟩

/-- C5: an exception inside a dispatched command handler produces the
execution-failed error response and the connection loop goes on to process
the remaining frames unchanged; a malformed frame produces the JSON-parse
error response and ends the responses of that connection; and the
responses of a connection depend only on the frames of that same
connection, so neither case affects the listener or any other
connection. -/
theorem server_error_isolation {α : Type} (exec : String → HandlerOutcome α)
    (c m md : String) (rest rest2 : List Frame)
    (conns conns2 : List (List Frame)) (i : Nat)
    (hknown : knownCommands.contains c = true)
    (hexec : exec c = .raises m)
    (hsame : conns[i]? = conns2[i]?) :
    handleClient exec (Frame.valid ⟨some c⟩ :: rest) =
      Response.err ("Command \x27" ++ c ++ "\x27 execution failed: " ++ m) ::
        handleClient exec rest ∧
    handleClient exec (Frame.malformed md :: rest2) =
      [Response.err ("JSON parse error: " ++ md)] ∧
    (runServer exec conns)[i]? = (runServer exec conns2)[i]? := by
  have hne : c ≠ "" := by
    intro hcz
    subst hcz
    exact absurd hknown (by decide)
  refine ⟨?_, rfl, ?_⟩
  · simp only [handleClient, processRequest]
    rw [if_neg hne, if_pos hknown, hexec]
  · simp [runServer, List.getElem?_map, hsame]

/-- Witness for server_error_isolation: a raising handler for a known
command, followed by a further frame on the same connection. -/
theorem server_error_isolation_witness :
    handleClient (fun _ => (HandlerOutcome.raises "boom" : HandlerOutcome Unit))
        [Frame.valid ⟨some "create_circle"⟩] =
      Response.err ("Command \x27" ++ "create_circle" ++ "\x27 execution failed: "
          ++ "boom") ::
        handleClient
          (fun _ => (HandlerOutcome.raises "boom" : HandlerOutcome Unit)) [] :=
  (server_error_isolation
    (fun _ => (HandlerOutcome.raises "boom" : HandlerOutcome Unit))
    "create_circle" "boom" "bad" [] [] [] [] 0 (by decide) rfl rfl).1

/-- C6 counterexample: the empty command name is outside the dispatch
table, yet the server answers with the missing-parameter error, not with
the unknown-command error, because the empty string is falsy in Python. -/
theorem unknown_command_empty_counterexample :
    knownCommands.contains "" = false ∧
    processRequest (fun _ => (HandlerOutcome.ok () : HandlerOutcome Unit))
        ⟨some ""⟩ = Response.err "Missing command parameter" ∧
    (Response.err "Missing command parameter" : Response Unit) ≠
      Response.err ("Unknown command: " ++ "") := by
  decide

/-- C6 amended: every request whose command name is nonempty and outside
the dispatch table is answered with exactly the unknown-command error
naming the command. -/
theorem unknown_command_response {α : Type} (exec : String → HandlerOutcome α)
    (c : String) (hne : c ≠ "") (hunk : knownCommands.contains c = false) :
    processRequest exec ⟨some c⟩ = .err ("Unknown command: " ++ c) := by
  simp only [processRequest]
  rw [if_neg hne, if_neg (by rw [hunk]; exact Bool.false_ne_true)]

/-- Witness for unknown_command_response: the particular request of the
claim. -/
theorem unknown_command_response_witness :
    processRequest (fun _ => (HandlerOutcome.ok () : HandlerOutcome Unit))
        ⟨some "does_not_exist"⟩ =
      Response.err "Unknown command: does_not_exist" := by
  rw [unknown_command_response _ "does_not_exist" (by decide) (by decide)]
  decide

/-- C1 counterexample: with the plugin client importable, the plugin
connection refused (test_connection false) and the Direct API unavailable,
initialize returns False and the mode stays unknown, not simulation. -/
theorem bridge_no_fallback_counterexample :
    (initializeBridge ⟨true, false, false, false, false⟩ (mkBridge true)).2 =
      false ∧
    (initializeBridge ⟨true, false, false, false, false⟩ (mkBridge true)).1.mode =
      "unknown" := by
  decide

/-- C1 amended: when the plugin mode is attempted (use_plugin_mode set and
the plugin client importable) and its connection test fails, initialize
returns False with the mode left unchanged; the simulation fallback, where
initialize returns True, the mode is simulation and has_active_design is
True, happens exactly when plugin mode is not attempted and the Direct API
is unavailable. -/
theorem initialize_mode_selection (env : BridgeEnv) (st : BridgeState)
    (hconn : env.testConnectionOk = false) (hfus : env.fusionAvailable = false) :
    ((st.usePluginMode && env.pluginClientAvailable) = true →
      initializeBridge env st = ({ st with pluginClientSet := true }, false)) ∧
    ((st.usePluginMode && env.pluginClientAvailable) = false →
      initializeBridge env st =
        ({ st with mode := "simulation", initialized := true }, true) ∧
      hasActiveDesign env { st with mode := "simulation", initialized := true } =
        true) := by
  constructor
  · intro hp
    simp [initializeBridge, hp, hconn]
  · intro hp
    refine ⟨?_, rfl⟩
    simp [initializeBridge, hp, hfus]

/-- Witness for initialize_mode_selection: one bridge whose plugin attempt
fails, one bridge that never attempts the plugin. -/
theorem initialize_mode_selection_witness :
    initializeBridge ⟨true, false, false, false, false⟩ (mkBridge true) =
      ({ mkBridge true with pluginClientSet := true }, false) ∧
    initializeBridge ⟨false, false, false, false, false⟩ (mkBridge true) =
      ({ mkBridge true with mode := "simulation", initialized := true }, true) :=
  ⟨(initialize_mode_selection ⟨true, false, false, false, false⟩ (mkBridge true)
      rfl rfl).1 rfl,
    ((initialize_mode_selection ⟨false, false, false, false, false⟩
      (mkBridge true) rfl rfl).2 rfl).1⟩

/-- C10: cleanup clears the initialized flag but leaves the selected mode
unchanged; in particular a simulation-mode bridge still reports mode
simulation and has_active_design True after cleanup. -/
theorem cleanup_preserves_mode (env : BridgeEnv) (st : BridgeState)
    (hinit : st.initialized = true) :
    (cleanupBridge st).initialized = false ∧
    (cleanupBridge st).mode = st.mode ∧
    (st.mode = "simulation" → hasActiveDesign env (cleanupBridge st) = true) := by
  refine ⟨rfl, rfl, ?_⟩
  intro hm
  simp [hasActiveDesign, cleanupBridge, hm]

/-- Witness for cleanup_preserves_mode: an initialized simulation-mode
bridge. -/
theorem cleanup_preserves_mode_witness :
    ({ mkBridge false with mode := "simulation", initialized := true } :
        BridgeState).initialized = true ∧
    (cleanupBridge
        { mkBridge false with mode := "simulation", initialized := true }).initialized =
      false ∧
    (cleanupBridge
        { mkBridge false with mode := "simulation", initialized := true }).mode =
      "simulation" ∧
    hasActiveDesign ⟨false, false, false, false, false⟩
        (cleanupBridge
          { mkBridge false with mode := "simulation", initialized := true }) =
      true := by
  have h := cleanup_preserves_mode ⟨false, false, false, false, false⟩
    { mkBridge false with mode := "simulation", initialized := true } rfl
  exact ⟨rfl, h.1, h.2.1, h.2.2 rfl⟩

end FusionMCP
